import Mathlib

/-!
Shallow embedding of the turn-routing agent:
  * `src/schemas.py` — pydantic response models (`AnswerResponse`,
    `UpdateMemoryResponse`, `UserIntent`, …) with field- and cross-field
    validation run at construction time;
  * `src/agent.py` — the LangGraph `AgentState`, the five node functions
    (`classify_intent`, `qa_agent`, `summarization_agent`,
    `calculation_agent`, `update_memory`), the router `should_continue`
    and the graph wiring of `create_workflow`.

Modelling conventions:
  * Python floats carrying confidence scores are modelled as exact
    rationals (`ℚ`); the only comparisons the code performs are against
    the decimal literals 0.0, 0.7, 1.0, which all behave identically for
    exact rationals and IEEE doubles on the inputs in question.
  * LLM / tool calls are external collaborators: each node's structured
    response is an input to the embedded node function, and a failing
    call is an `Except.error`.
  * A LangGraph node returns a partial state update (a Python dict of
    channel writes); this is `StateUpdate`, with `none` meaning the key
    is absent from the returned dict.  `applyUpdate` implements the
    channel merge: `messages` merges with the `add_messages` reducer,
    `actions_taken` with `operator.add` (list concatenation), every
    other channel overwrites.
  * pydantic v2 construction: provided field values are validated;
    a `default_factory` result is used *unvalidated* (`validate_default`
    is false).  `schemas.py` writes `default_factory=lambda: list`,
    a zero-argument callable returning the *builtin type object*
    `list` — not an empty list.  The embedding therefore distinguishes
    an actual list value from the `list` type object (`PySources`),
    with Python truthiness: a class object is truthy, a list is truthy
    iff non-empty.
-/

/-! ## Messages and the `add_messages` reducer -/

/-- A conversation message (`langchain_core.messages.BaseMessage`).
`id` is the message identifier `add_messages` merges on, `role`
distinguishes system / human / ai / tool messages, `name` is the tool
name carried by a `ToolMessage`. -/
structure Message where
  id : Nat
  role : String
  content : String
  name : String
deriving DecidableEq, Repr

/-- One step of the `add_messages` reducer: a right-hand message whose
`id` already occurs in the accumulator replaces the message(s) with that
id in place; otherwise it is appended. -/
def mergeOne (acc : List Message) (m : Message) : List Message :=
  if acc.any (fun o => o.id = m.id) then
    acc.map (fun o => if o.id = m.id then m else o)
  else
    acc ++ [m]

/-- The `langgraph.graph.message.add_messages` reducer annotated on
`AgentState.messages`: merge the update list into the existing list,
replacing by id and appending fresh ids (the repository never constructs
a `RemoveMessage`, so no deletion case arises). -/
def add_messages (old upd : List Message) : List Message :=
  upd.foldl mergeOne old

/-! ## `src/schemas.py` — structured response models -/

/-- The value bound to `AnswerResponse.sources` after construction.
`pydantic.Field(default_factory=lambda: list)` calls the factory when
the field is omitted and binds its result without validation; the
factory returns the *builtin type object* `list` (it is `lambda: list`,
not `lambda: list()`), hence the second constructor. -/
inductive PySources
  | pyList (xs : List String)
  | listType
deriving DecidableEq, Repr

/-- Python truthiness of the `sources` value: an actual list is truthy
iff non-empty; the builtin type object `list` is truthy. -/
def PySources.truthy : PySources → Bool
  | .pyList xs => !xs.isEmpty
  | .listType => true

/-- `schemas.AnswerResponse` (the `timestamp` field, an external clock
read, is omitted). -/
structure AnswerResponse where
  question : String
  answer : String
  sources : PySources
  confidence : ℚ
deriving DecidableEq, Repr

/-- pydantic construction of `AnswerResponse`:
field validation (`confidence` has `ge=0.0, le=1.0`; a provided
`sources` list is validated, an omitted one gets the unvalidated
`default_factory` result `list`), then the `mode='after'` model
validator `validate_sources_with_confidence`, which raises when
`confidence >= 0.7 and not self.sources`. -/
def AnswerResponse.construct (question answer : String)
    (sources : Option (List String)) (confidence : ℚ) :
    Except String AnswerResponse :=
  if confidence < 0 ∨ 1 < confidence then
    .error "confidence out of range"
  else
    let s : PySources :=
      match sources with
      | some xs => .pyList xs
      | none => .listType
    if 0.7 ≤ confidence ∧ s.truthy = false then
      .error "Sources cannot be empty when confidence is high"
    else
      .ok { question := question, answer := answer, sources := s,
            confidence := confidence }

/-- `schemas.SummarizationResponse` (timestamp omitted; the
`document_ids` default carries the same `lambda: list` factory, modelled
only where a claim depends on it). -/
structure SummarizationResponse where
  original_length : Nat
  summary : String
  key_points : List String
  document_ids : List String
deriving DecidableEq, Repr

/-- `schemas.CalculationResponse` (timestamp omitted; `result` is a
float modelled as ℚ). -/
structure CalculationResponse where
  expression : String
  result : ℚ
  explanation : String
  units : Option String
deriving DecidableEq, Repr

/-- `schemas.UpdateMemoryResponse`: the memory consolidator's structured
output. -/
structure UpdateMemoryResponse where
  summary : String
  document_ids : List String
deriving DecidableEq, Repr

/-- The `Literal["qa", "summarization", "calculation", "unknown"]`
values admitted for `UserIntent.intent_type`. -/
inductive IntentType
  | qa
  | summarization
  | calculation
  | unknown
deriving DecidableEq, Repr

/-- The raw string value of the literal, as stored in the pydantic
field and used by the router as the routing key. -/
def IntentType.str : IntentType → String
  | .qa => "qa"
  | .summarization => "summarization"
  | .calculation => "calculation"
  | .unknown => "unknown"

/-- `schemas.UserIntent`: the intent classification result. -/
structure UserIntent where
  intent_type : IntentType
  confidence : ℚ
  reasoning : String
deriving DecidableEq, Repr

/-! ## `src/agent.py` — agent state, node functions, router, graph -/

/-- The ReAct agent's result dict, as consumed by `invoke_react_agent`:
only its `"messages"` entry is read by the repository code. -/
structure ReactResult where
  messages : List Message
deriving DecidableEq, Repr

/-- `agent.AgentState` (a `TypedDict`).  `next_step` is declared `str`
but the key may be absent at runtime (`state.get("next_step", "end")`),
hence `Option String`. -/
structure AgentState where
  user_input : Option String
  messages : List Message
  intent : Option UserIntent
  next_step : Option String
  conversation_summary : String
  active_documents : Option (List String)
  current_response : Option ReactResult
  tools_used : List String
  session_id : Option String
  user_id : Option String
  actions_taken : List String
deriving DecidableEq, Repr

/-- A node's returned dict of channel writes; `none` means the key is
absent from the returned dict, so the channel keeps its value. -/
structure StateUpdate where
  messages : Option (List Message)
  intent : Option UserIntent
  next_step : Option String
  conversation_summary : Option String
  active_documents : Option (List String)
  current_response : Option ReactResult
  tools_used : Option (List String)
  actions_taken : Option (List String)
deriving DecidableEq, Repr

/-- LangGraph channel merge of a node's returned update into the state:
`messages` is `Annotated[..., add_messages]`, `actions_taken` is
`Annotated[..., operator.add]` (concatenation); every other present key
overwrites its channel. -/
def applyUpdate (s : AgentState) (u : StateUpdate) : AgentState :=
  { user_input := s.user_input
    messages := match u.messages with
      | none => s.messages
      | some ms => add_messages s.messages ms
    intent := match u.intent with
      | none => s.intent
      | some i => some i
    next_step := match u.next_step with
      | none => s.next_step
      | some n => some n
    conversation_summary :=
      (u.conversation_summary).getD s.conversation_summary
    active_documents := match u.active_documents with
      | none => s.active_documents
      | some d => some d
    current_response := match u.current_response with
      | none => s.current_response
      | some r => some r
    tools_used := match u.tools_used with
      | none => s.tools_used
      | some t => t
    session_id := s.session_id
    user_id := s.user_id
    actions_taken := s.actions_taken ++ (u.actions_taken).getD [] }

/-- Tag selecting the response schema a task handler enforces (the
schema only parameterizes the external reasoning loop). -/
inductive ResponseSchema
  | answer
  | summarization
  | calculation
deriving DecidableEq, Repr

/-- `agent.invoke_react_agent`: runs the ReAct loop (external; its
result is the `result` argument) and computes `tools_used` as the names
of the `ToolMessage`s in `result["messages"]`. -/
def invoke_react_agent (_schema : ResponseSchema) (result : ReactResult) :
    ReactResult × List String :=
  (result,
    (result.messages.filter (fun m => m.role = "tool")).map
      (fun m => m.name))

/-- `agent.classify_intent` on the success path: `response` is the
structured output the LLM returned for `UserIntent`.  Returns the dict
`{"actions_taken": ["classify_intent"], "intent": response,
"next_step": response.intent_type}`. -/
def classify_intent (_s : AgentState) (response : UserIntent) :
    StateUpdate :=
  { messages := none
    intent := some response
    next_step := some response.intent_type.str
    conversation_summary := none
    active_documents := none
    current_response := none
    tools_used := none
    actions_taken := some ["classify_intent"] }

/-- `agent.qa_agent` on the success path: `result` is the ReAct agent's
result for the QA prompt. -/
def qa_agent (_s : AgentState) (result : ReactResult) : StateUpdate :=
  let r := invoke_react_agent .answer result
  { messages := some r.1.messages
    intent := none
    next_step := some "update_memory"
    conversation_summary := none
    active_documents := none
    current_response := some r.1
    tools_used := some r.2
    actions_taken := some ["qa_agent"] }

/-- `agent.summarization_agent` on the success path. -/
def summarization_agent (_s : AgentState) (result : ReactResult) :
    StateUpdate :=
  let r := invoke_react_agent .summarization result
  { messages := some r.1.messages
    intent := none
    next_step := some "update_memory"
    conversation_summary := none
    active_documents := none
    current_response := some r.1
    tools_used := some r.2
    actions_taken := some ["summarization_agent"] }

/-- `agent.calculation_agent` on the success path. -/
def calculation_agent (_s : AgentState) (result : ReactResult) :
    StateUpdate :=
  let r := invoke_react_agent .calculation result
  { messages := some r.1.messages
    intent := none
    next_step := some "update_memory"
    conversation_summary := none
    active_documents := none
    current_response := some r.1
    tools_used := some r.2
    actions_taken := some ["calculation_agent"] }

/-- `agent.update_memory` on the success path: `response` is the
structured `UpdateMemoryResponse` the LLM returned. -/
def update_memory (_s : AgentState) (response : UpdateMemoryResponse) :
    StateUpdate :=
  { messages := none
    intent := none
    next_step := some "end"
    conversation_summary := some response.summary
    active_documents := some response.document_ids
    current_response := none
    tools_used := none
    actions_taken := some ["update_memory"] }

/-- `agent.should_continue`: `state.get("next_step", "end")`. -/
def should_continue (s : AgentState) : String :=
  s.next_step.getD "end"

/-- The three task-handler nodes: the possible targets of the
conditional edge out of `classify_intent`. -/
inductive Handler
  | qa_agent
  | summarization_agent
  | calculation_agent
deriving DecidableEq, Repr

/-- The conditional-edge path map passed to `add_conditional_edges` in
`create_workflow`: `{"qa": "qa_agent", "summarization":
"summarization_agent", "calculation": "calculation_agent", "end": END}`.
The inner `none` is `END`; the outer `none` is a key absent from the
dict, on which LangGraph's branch raises (an unhandled branch value)
instead of routing. -/
def classifyPathMap (k : String) : Option (Option Handler) :=
  if k = "qa" then some (some .qa_agent)
  else if k = "summarization" then some (some .summarization_agent)
  else if k = "calculation" then some (some .calculation_agent)
  else if k = "end" then some none
  else none

/-- The fixed (unconditional) edges added by `create_workflow`; `"END"`
stands for the graph's terminal node `END`. -/
def fixedEdges : List (String × String) :=
  [("qa_agent", "update_memory"),
   ("summarization_agent", "update_memory"),
   ("calculation_agent", "update_memory"),
   ("update_memory", "END")]

/-- The successors of a node along the fixed edges of the compiled
graph. -/
def successors (n : String) : List String :=
  (fixedEdges.filter (fun e => e.1 = n)).map (fun e => e.2)

/-- The node-name string of a handler node, as used in
`workflow.add_node` / `add_edge`. -/
def Handler.nodeName : Handler → String
  | .qa_agent => "qa_agent"
  | .summarization_agent => "summarization_agent"
  | .calculation_agent => "calculation_agent"

/-- Dispatch a handler node to its node function. -/
def runHandler : Handler → AgentState → ReactResult → StateUpdate
  | .qa_agent => qa_agent
  | .summarization_agent => summarization_agent
  | .calculation_agent => calculation_agent

/-! ## Turn execution -/

/-- The external collaborators' behaviour for one turn: each LLM /
ReAct call either returns its structured result or fails
(classification failure, response-validation failure, structured-output
failure). -/
structure TurnOracle where
  classify : Except String UserIntent
  handler : Except String ReactResult
  memory : Except String UpdateMemoryResponse
deriving Repr

/-- The outcome of one turn: `ok` with the final state, or `err` with
the last state the checkpointer committed before the failing step and
the surfaced error. -/
inductive TurnOutcome
  | ok (final : AgentState)
  | err (checkpointed : AgentState) (msg : String)
deriving DecidableEq, Repr

/-- One turn of the compiled workflow, from entry point
`classify_intent`: apply `classify_intent`, route via `should_continue`
through the conditional-edge path map, run the selected handler, follow
its fixed edge to `update_memory`, then the fixed edge to `END`.  A
failing collaborator call aborts the turn with the state checkpointed
after the last completed node; a routing key absent from the path map
raises inside the `classify_intent` task, whose write is then not
committed. -/
def runTurn (s0 : AgentState) (o : TurnOracle) : TurnOutcome :=
  match o.classify with
  | .error e => .err s0 e
  | .ok resp =>
    let s1 := applyUpdate s0 (classify_intent s0 resp)
    match classifyPathMap (should_continue s1) with
    | none => .err s0 "unhandled branch value"
    | some none => .ok s1
    | some (some h) =>
      match o.handler with
      | .error e => .err s1 e
      | .ok result =>
        let s2 := applyUpdate s1 (runHandler h s1 result)
        match o.memory with
        | .error e => .err s2 e
        | .ok mresp => .ok (applyUpdate s2 (update_memory s2 mresp))

/-- A sequence of turns in one checkpointed session, all of which must
succeed. -/
def runTurnsOk (s : AgentState) : List TurnOracle → Option AgentState
  | [] => some s
  | o :: os =>
    match runTurn s o with
    | .ok s1 => runTurnsOk s1 os
    | .err _ _ => none

/-! ## Concrete states and oracles used by witnesses -/

/-- A fresh session state: no prior turns, empty audit trail. -/
def sampleState : AgentState :=
  { user_input := some "What is the capital of France?"
    messages := []
    intent := none
    next_step := none
    conversation_summary := ""
    active_documents := none
    current_response := none
    tools_used := []
    session_id := some "s1"
    user_id := some "u1"
    actions_taken := [] }

/-- A classification result with intent `qa`. -/
def qaIntent : UserIntent :=
  { intent_type := .qa, confidence := 0.95, reasoning := "question" }

/-- A ReAct result carrying one fresh AI message. -/
def qaResult : ReactResult :=
  { messages := [{ id := 10, role := "ai", content := "Paris", name := "" }] }

/-- A memory-consolidation response. -/
def memResp : UpdateMemoryResponse :=
  { summary := "talked about France", document_ids := ["encyclopedia"] }

/-- A turn in which all three collaborator calls succeed and the intent
is `qa`. -/
def qaOracle : TurnOracle :=
  { classify := .ok qaIntent, handler := .ok qaResult, memory := .ok memResp }

/-- The state a successful `qa` turn from `sampleState` under
`qaOracle` ends in. -/
def qaFinal : AgentState :=
  { user_input := some "What is the capital of France?"
    messages := [{ id := 10, role := "ai", content := "Paris", name := "" }]
    intent := some qaIntent
    next_step := some "end"
    conversation_summary := "talked about France"
    active_documents := some ["encyclopedia"]
    current_response := some qaResult
    tools_used := []
    session_id := some "s1"
    user_id := some "u1"
    actions_taken := ["classify_intent", "qa_agent", "update_memory"] }

/-- End-to-end sanity: the concrete successful `qa` turn from the
fresh session state computes exactly `qaFinal`. -/
theorem qa_turn_end_to_end : runTurn sampleState qaOracle = .ok qaFinal := by
  rfl

/-- Unfolding of `runTurn` once the classification call is known to
have succeeded: the routing key is the raw `intent_type` string. -/
theorem runTurn_classified_eq (s : AgentState) (i : UserIntent)
    (oh : Except String ReactResult)
    (om : Except String UpdateMemoryResponse) :
    runTurn s ⟨Except.ok i, oh, om⟩ =
      (match classifyPathMap i.intent_type.str with
       | none => .err s "unhandled branch value"
       | some none => .ok (applyUpdate s (classify_intent s i))
       | some (some h) =>
         match oh with
         | .error e => .err (applyUpdate s (classify_intent s i)) e
         | .ok result =>
           let s1 := applyUpdate s (classify_intent s i)
           let s2 := applyUpdate s1 (runHandler h s1 result)
           match om with
           | .error e => .err s2 e
           | .ok mresp => .ok (applyUpdate s2 (update_memory s2 mresp))) :=
  rfl

/-! ## Claim theorems -/

/-- C5: on every state on which `classify_intent` succeeds, the
returned update appends exactly `"classify_intent"` to `actions_taken`,
stores the classified `UserIntent` in `intent`, and sets `next_step` to
the raw `intent_type` string of the classification. -/
theorem classify_intent_update_spec (s : AgentState) (resp : UserIntent) :
    (classify_intent s resp).actions_taken = some ["classify_intent"] ∧
    (classify_intent s resp).intent = some resp ∧
    (classify_intent s resp).next_step = some resp.intent_type.str ∧
    (applyUpdate s (classify_intent s resp)).actions_taken
      = s.actions_taken ++ ["classify_intent"] ∧
    (applyUpdate s (classify_intent s resp)).intent = some resp ∧
    (applyUpdate s (classify_intent s resp)).next_step
      = some resp.intent_type.str :=
  ⟨rfl, rfl, rfl, rfl, rfl, rfl⟩

/-- C6: every task handler, whenever it returns successfully, sets
`next_step` to `"update_memory"` unconditionally, and in the compiled
graph each of the three task-handler nodes has `update_memory` as its
sole successor along the fixed edges. -/
theorem handlers_converge_on_update_memory :
    (∀ (s : AgentState) (r : ReactResult),
       (qa_agent s r).next_step = some "update_memory") ∧
    (∀ (s : AgentState) (r : ReactResult),
       (summarization_agent s r).next_step = some "update_memory") ∧
    (∀ (s : AgentState) (r : ReactResult),
       (calculation_agent s r).next_step = some "update_memory") ∧
    (∀ h : Handler, successors h.nodeName = ["update_memory"]) := by
  refine ⟨fun s r => rfl, fun s r => rfl, fun s r => rfl, fun h => ?_⟩
  cases h <;> rfl

/-- C7: on every state on which `update_memory` succeeds, the returned
update overwrites `conversation_summary` with the consolidator
response's `summary`, overwrites `active_documents` with the response's
`document_ids`, appends exactly `"update_memory"` to `actions_taken`,
and sets `next_step` to `"end"`. -/
theorem update_memory_update_spec (s : AgentState)
    (resp : UpdateMemoryResponse) :
    (update_memory s resp).conversation_summary = some resp.summary ∧
    (update_memory s resp).active_documents = some resp.document_ids ∧
    (update_memory s resp).actions_taken = some ["update_memory"] ∧
    (update_memory s resp).next_step = some "end" ∧
    (applyUpdate s (update_memory s resp)).conversation_summary
      = resp.summary ∧
    (applyUpdate s (update_memory s resp)).active_documents
      = some resp.document_ids ∧
    (applyUpdate s (update_memory s resp)).actions_taken
      = s.actions_taken ++ ["update_memory"] ∧
    (applyUpdate s (update_memory s resp)).next_step = some "end" :=
  ⟨rfl, rfl, rfl, rfl, rfl, rfl, rfl, rfl⟩

/-- C9: the router `should_continue` is total; on every state whose
`next_step` key is absent it returns `"end"` instead of raising. -/
theorem should_continue_defaults_to_end (s : AgentState)
    (h : s.next_step = none) : should_continue s = "end" := by
  simp [should_continue, h]

/-- C9 witness: `should_continue` on a concrete state with no
`next_step` key returns `"end"`. -/
theorem should_continue_defaults_to_end_witness :
    should_continue sampleState = "end" :=
  should_continue_defaults_to_end sampleState rfl

/-- C2: evaluation of `AnswerResponse` construction at the failing
input.  With `confidence = 0.9` and `sources` *provided* as the empty
list, construction fails as claimed; but with `confidence = 0.9` and
`sources` omitted, construction *succeeds*, binding `sources` to the
unvalidated `default_factory` result — the builtin type object `list`,
which is truthy and is not a one-or-more-element source list.  The
claim's final conjunct (every successfully constructed response with
`confidence ≥ 0.7` has at least one source) is therefore violated by
the code. -/
theorem answerResponse_omitted_sources_bug :
    AnswerResponse.construct "q" "a" (some []) 0.9 =
      Except.error "Sources cannot be empty when confidence is high" ∧
    AnswerResponse.construct "q" "a" none 0.9 =
      Except.ok { question := "q", answer := "a",
                  sources := PySources.listType, confidence := 0.9 } ∧
    PySources.listType ≠ PySources.pyList [] ∧
    (PySources.listType matches PySources.pyList _) = False := by
  refine ⟨?_, ?_, by decide, by simp⟩ <;>
    norm_num [AnswerResponse.construct, PySources.truthy]

/-- C10 counterexample: at the boundary `confidence = 0.7` with
`sources` omitted — which per the claim defaults to the empty list and
must therefore be rejected — construction in fact succeeds, and the
value bound to `sources` is the builtin type object `list`, not the
empty list. -/
theorem answerResponse_default_not_empty_list :
    AnswerResponse.construct "q" "a" none 0.7 =
      Except.ok { question := "q", answer := "a",
                  sources := PySources.listType, confidence := 0.7 } ∧
    PySources.listType ≠ PySources.pyList [] := by
  refine ⟨?_, by decide⟩
  norm_num [AnswerResponse.construct, PySources.truthy]

/-- C10 amended: for every in-range confidence, construction with
`sources` omitted succeeds (at any confidence, below or above 0.7),
binding `sources` to the builtin type object `list` rather than the
empty list; with `sources` explicitly the empty list, construction
fails precisely when `confidence ≥ 0.7`. -/
theorem answerResponse_rejection_boundary (q a : String) (conf : ℚ)
    (h0 : 0 ≤ conf) (h1 : conf ≤ 1) :
    AnswerResponse.construct q a none conf =
      Except.ok { question := q, answer := a,
                  sources := PySources.listType, confidence := conf } ∧
    ((0.7 : ℚ) ≤ conf ↔
      AnswerResponse.construct q a (some []) conf =
        Except.error "Sources cannot be empty when confidence is high") := by
  have hrange : ¬(conf < 0 ∨ 1 < conf) := by
    push_neg
    exact ⟨h0, h1⟩
  constructor
  · simp [AnswerResponse.construct, hrange, PySources.truthy]
  · constructor
    · intro hc
      simp [AnswerResponse.construct, hrange, PySources.truthy, hc,
            List.isEmpty]
    · intro he
      by_contra hc
      simp [AnswerResponse.construct, hrange, PySources.truthy, hc,
            List.isEmpty] at he

/-- C10 amended witness: at the concrete confidence 0.5, construction
with omitted sources succeeds with the `list` type object bound, and
construction with explicitly empty sources does not fail (0.7 ≤ 0.5 is
false). -/
theorem answerResponse_rejection_boundary_witness :
    AnswerResponse.construct "q" "a" none 0.5 =
      Except.ok { question := "q", answer := "a",
                  sources := PySources.listType, confidence := 0.5 } ∧
    ((0.7 : ℚ) ≤ 0.5 ↔
      AnswerResponse.construct "q" "a" (some []) 0.5 =
        Except.error "Sources cannot be empty when confidence is high") :=
  answerResponse_rejection_boundary "q" "a" 0.5 (by norm_num) (by norm_num)

/-- A classification result with intent `unknown`. -/
def unknownIntent : UserIntent :=
  { intent_type := .unknown, confidence := 0.5, reasoning := "unclear" }

/-- A turn whose classification returns the `unknown` intent; the later
collaborator calls are never reached. -/
def unknownOracle : TurnOracle :=
  { classify := .ok unknownIntent
    handler := .error "not reached"
    memory := .error "not reached" }

/-- C1: evaluation at the failing input.  After a classification
returning `intent_type = "unknown"`, the routing key is `"unknown"`,
but the conditional-edge path map of `create_workflow` has no entry for
`"unknown"` (only `"qa"`, `"summarization"`, `"calculation"`, `"end"`),
so the branch has no target: LangGraph raises an unhandled-branch-value
error inside the `classify_intent` task instead of transitioning to the
terminal `END`.  The `"end"` key, by contrast, does map to `END`. -/
theorem unknown_intent_routing_unmapped :
    should_continue
      (applyUpdate sampleState (classify_intent sampleState unknownIntent))
      = "unknown" ∧
    classifyPathMap "unknown" = none ∧
    classifyPathMap "end" = some none ∧
    runTurn sampleState unknownOracle =
      .err sampleState "unhandled branch value" :=
  ⟨rfl, rfl, rfl, rfl⟩

/-- C3: for every successful turn classified as `qa`, the turn appends
exactly `["classify_intent", "qa_agent", "update_memory"]`, in that
order, to the `actions_taken` audit trail (so a turn from a fresh
session, whose trail starts empty, ends with exactly that list). -/
theorem qa_turn_actions_taken (s : AgentState) (o : TurnOracle)
    (i : UserIntent) (r : ReactResult) (m : UpdateMemoryResponse)
    (hc : o.classify = .ok i) (hi : i.intent_type = .qa)
    (hh : o.handler = .ok r) (hm : o.memory = .ok m) :
    ∃ s3, runTurn s o = .ok s3 ∧
      s3.actions_taken =
        s.actions_taken ++ ["classify_intent", "qa_agent", "update_memory"] := by
  obtain ⟨oc, oh, om⟩ := o
  obtain ⟨it, conf, reas⟩ := i
  simp only at hc hh hm hi
  subst hc
  subst hh
  subst hm
  subst hi
  refine ⟨_, rfl, ?_⟩
  simp [applyUpdate, classify_intent, qa_agent, update_memory,
        invoke_react_agent, runHandler]

/-- C3 witness: the concrete successful `qa` turn from the fresh
session state ends with exactly the three-action trail. -/
theorem qa_turn_actions_taken_witness :
    ∃ s3, runTurn sampleState qaOracle = .ok s3 ∧
      s3.actions_taken =
        sampleState.actions_taken ++
          ["classify_intent", "qa_agent", "update_memory"] :=
  qa_turn_actions_taken sampleState qaOracle qaIntent qaResult memResp
    rfl rfl rfl rfl

/-- C4: for every turn that fails at the task-handler step (the
classification succeeded, the routing selected a task handler, and the
handler's collaborator call raised instead of returning an update), the
turn aborts with the handler's error: the memory-consolidation step
does not run, the checkpointed state's `conversation_summary` and
`active_documents` are exactly their pre-turn values, and only
`"classify_intent"` was appended to the audit trail. -/
theorem handler_failure_preserves_memory (s : AgentState) (o : TurnOracle)
    (i : UserIntent) (h : Handler) (e : String)
    (hc : o.classify = .ok i)
    (hroute : classifyPathMap i.intent_type.str = some (some h))
    (hh : o.handler = .error e) :
    runTurn s o = .err (applyUpdate s (classify_intent s i)) e ∧
    (applyUpdate s (classify_intent s i)).conversation_summary
      = s.conversation_summary ∧
    (applyUpdate s (classify_intent s i)).active_documents
      = s.active_documents ∧
    (applyUpdate s (classify_intent s i)).actions_taken
      = s.actions_taken ++ ["classify_intent"] := by
  obtain ⟨oc, oh, om⟩ := o
  simp only at hc hh
  subst hc
  subst hh
  refine ⟨?_, rfl, rfl, rfl⟩
  rw [runTurn_classified_eq, hroute]

/-- A turn whose classification returns `qa` but whose QA handler fails
validation. -/
def qaFailOracle : TurnOracle :=
  { classify := .ok qaIntent
    handler := .error "ResponseValidationError"
    memory := .error "not reached" }

/-- C4 witness: the concrete failing-handler turn from the fresh
session state aborts with the handler error and unchanged memory
fields. -/
theorem handler_failure_preserves_memory_witness :
    runTurn sampleState qaFailOracle =
      .err (applyUpdate sampleState (classify_intent sampleState qaIntent))
        "ResponseValidationError" ∧
    (applyUpdate sampleState
      (classify_intent sampleState qaIntent)).conversation_summary
      = sampleState.conversation_summary ∧
    (applyUpdate sampleState
      (classify_intent sampleState qaIntent)).active_documents
      = sampleState.active_documents ∧
    (applyUpdate sampleState
      (classify_intent sampleState qaIntent)).actions_taken
      = sampleState.actions_taken ++ ["classify_intent"] :=
  handler_failure_preserves_memory sampleState qaFailOracle qaIntent
    .qa_agent "ResponseValidationError" rfl rfl rfl

/-! ## Monotonicity of the message channel -/

/-- One `add_messages` step never shrinks the list: replacement keeps
the length, appending grows it. -/
theorem length_le_mergeOne (acc : List Message) (m : Message) :
    acc.length ≤ (mergeOne acc m).length := by
  unfold mergeOne
  split
  · simp
  · simp

/-- The `add_messages` reducer never shrinks the message list. -/
theorem length_le_add_messages (old upd : List Message) :
    old.length ≤ (add_messages old upd).length := by
  induction upd generalizing old with
  | nil => exact le_refl _
  | cons m upd ih =>
    calc old.length ≤ (mergeOne old m).length := length_le_mergeOne old m
      _ ≤ (add_messages (mergeOne old m) upd).length := ih _

/-- One `add_messages` step keeps every message of `old` at its
position, provided any update message colliding with an id of `old` is
that stored message itself (no component of the repository emits a
conflicting rewrite of a stored message). -/
theorem mergeOne_preserves (old acc : List Message) (m : Message)
    (H : ∀ o ∈ old, o.id = m.id → m = o)
    (hlen : old.length ≤ acc.length)
    (hpre : ∀ i, i < old.length → acc[i]? = old[i]?) :
    old.length ≤ (mergeOne acc m).length ∧
    ∀ i, i < old.length → (mergeOne acc m)[i]? = old[i]? := by
  unfold mergeOne
  split
  · refine ⟨by simpa using hlen, fun i hi => ?_⟩
    rw [List.getElem?_map, hpre i hi]
    have hio : old[i]? = some old[i] := List.getElem?_eq_getElem hi
    rw [hio]
    show some (if old[i].id = m.id then m else old[i]) = some old[i]
    by_cases hid : old[i].id = m.id
    · rw [if_pos hid, H old[i] (List.getElem_mem hi) hid]
    · rw [if_neg hid]
  · refine ⟨by simp; omega, fun i hi => ?_⟩
    rw [List.getElem?_append_left (lt_of_lt_of_le hi hlen)]
    exact hpre i hi

/-- Folding `add_messages` over any update list keeps every message of
`old` unchanged at its position, under the same no-conflicting-rewrite
hypothesis. -/
theorem add_messages_preserves_aux (old : List Message) :
    ∀ (upd acc : List Message),
      (∀ m ∈ upd, ∀ o ∈ old, o.id = m.id → m = o) →
      old.length ≤ acc.length →
      (∀ i, i < old.length → acc[i]? = old[i]?) →
      old.length ≤ (upd.foldl mergeOne acc).length ∧
      ∀ i, i < old.length → (upd.foldl mergeOne acc)[i]? = old[i]? := by
  intro upd
  induction upd with
  | nil => exact fun acc _ hlen hpre => ⟨hlen, hpre⟩
  | cons m upd ih =>
    intro acc H hlen hpre
    have step := mergeOne_preserves old acc m
      (fun o ho hid => H m (List.mem_cons_self m upd) o ho hid) hlen hpre
    exact ih (mergeOne acc m)
      (fun m' hm' o ho hid => H m' (List.mem_cons_of_mem m hm') o ho hid)
      step.1 step.2

/-- `add_messages` preserves every previously stored message at its
position whenever no update message conflicts with a stored id. -/
theorem add_messages_preserves (old upd : List Message)
    (H : ∀ m ∈ upd, ∀ o ∈ old, o.id = m.id → m = o) :
    ∀ i, i < old.length → (add_messages old upd)[i]? = old[i]? :=
  (add_messages_preserves_aux old upd old H (le_refl _)
    (fun _ _ => rfl)).2

/-- One successful turn never shrinks the message list: only the task
handler writes the `messages` channel, through `add_messages`. -/
theorem runTurn_messages_mono (s : AgentState) (o : TurnOracle)
    (s3 : AgentState) (h : runTurn s o = .ok s3) :
    s.messages.length ≤ s3.messages.length := by
  obtain ⟨oc, oh, om⟩ := o
  cases oc with
  | error e => simp [runTurn] at h
  | ok i =>
    rw [runTurn_classified_eq] at h
    cases hmap : classifyPathMap i.intent_type.str with
    | none => rw [hmap] at h; simp at h
    | some t =>
      rw [hmap] at h
      cases t with
      | none =>
        injection h with h
        subst h
        exact Nat.le_of_eq rfl
      | some hdl =>
        cases oh with
        | error e => simp at h
        | ok r =>
          cases om with
          | error e => simp at h
          | ok m =>
            injection h with h
            subst h
            cases hdl <;>
              exact length_le_add_messages s.messages r.messages

/-- Across every sequence of successful turns in one session the
message list length is monotonically non-decreasing. -/
theorem runTurnsOk_messages_mono (os : List TurnOracle)
    (s s3 : AgentState) (h : runTurnsOk s os = some s3) :
    s.messages.length ≤ s3.messages.length := by
  induction os generalizing s with
  | nil =>
    simp [runTurnsOk] at h
    subst h
    exact le_refl _
  | cons o os ih =>
    simp only [runTurnsOk] at h
    cases hr : runTurn s o with
    | ok s1 =>
      rw [hr] at h
      exact (runTurn_messages_mono s o s1 hr).trans (ih s1 h)
    | err st e => rw [hr] at h; simp at h

/-- C8: the `messages` field only grows.  (i) Every node execution that
writes the `messages` channel goes through the `add_messages` reducer,
which never shrinks the list; (ii) across every sequence of successful
turns the length of `messages` is monotonically non-decreasing;
(iii) every previously stored message stays unchanged at its position
under any merge whose update does not carry a conflicting rewrite of a
stored id (the handlers merge the ReAct result, which passes the prior
history through unchanged). -/
theorem messages_only_grow :
    (∀ old upd : List Message,
       old.length ≤ (add_messages old upd).length) ∧
    (∀ (s : AgentState) (os : List TurnOracle) (s3 : AgentState),
       runTurnsOk s os = some s3 →
       s.messages.length ≤ s3.messages.length) ∧
    (∀ old upd : List Message,
       (∀ m ∈ upd, ∀ o ∈ old, o.id = m.id → m = o) →
       ∀ i, i < old.length → (add_messages old upd)[i]? = old[i]?) :=
  ⟨length_le_add_messages,
   fun s os s3 h => runTurnsOk_messages_mono os s s3 h,
   add_messages_preserves⟩

/-- A stored message and a fresh update message with distinct ids. -/
def msgA : Message := { id := 1, role := "human", content := "hi", name := "" }

/-- A fresh AI message merged by a later node. -/
def msgB : Message := { id := 2, role := "ai", content := "hello", name := "" }

/-- C8 witness: across the concrete successful `qa` turn the message
list does not shrink, and a concrete merge of a fresh message keeps the
stored message at its position. -/
theorem messages_only_grow_witness :
    sampleState.messages.length ≤ qaFinal.messages.length ∧
    (add_messages [msgA] [msgB])[0]? = [msgA][0]? :=
  ⟨messages_only_grow.2.1 sampleState [qaOracle] qaFinal rfl,
   messages_only_grow.2.2 [msgA] [msgB] (by decide) 0 (by decide)⟩
